import Mathlib

/-!
Verification development for the product-page data-acquisition pipeline:
the record normalizer (transformers), the response validator, the error
classifier, the fetch orchestrator (getProductById / getProducts), and the
request-lifecycle coordinator of the ProductPage component.

Machine integers of the source are plain JavaScript numbers; where the code
does exact arithmetic on them (prices, delays, counters) we model them as
rationals or naturals.  Strings are Lean strings; JavaScript objects are
association lists in insertion order.
-/

/-- A JavaScript value, as far as the code under study inspects one.
vNull stands for both null and undefined (the code treats them alike at
every point we model); vNaN is the number NaN. -/
inductive JValue where
  | vNull
  | vNum (q : ℚ)
  | vNaN
  | vStr (s : String)
  | vBool (b : Bool)
  | vObj (fields : List (String × JValue))
  | vArr (elems : List JValue)

/-- JavaScript truthiness for the values we model. -/
def jsTruthy : JValue → Bool
  | .vNull => false
  | .vNum q => decide (q ≠ 0)
  | .vNaN => false
  | .vStr s => decide (s ≠ "")
  | .vBool b => b
  | .vObj _ => true
  | .vArr _ => true

/-- A character matched by the backslash-s class of a JavaScript regex:
tab, line feed, vertical tab, form feed, carriage return, space, no-break
space, ogham space mark, the en-quad through hair-space range, line and
paragraph separators, narrow no-break space, medium mathematical space,
ideographic space, and the byte-order mark. -/
def jsRegexWhitespace (c : Char) : Bool :=
  (9 ≤ c.toNat && c.toNat ≤ 13) || c.toNat == 32 ||
  c.toNat == 0xa0 || c.toNat == 0x1680 ||
  (0x2000 ≤ c.toNat && c.toNat ≤ 0x200a) ||
  c.toNat == 0x2028 || c.toNat == 0x2029 || c.toNat == 0x202f ||
  c.toNat == 0x205f || c.toNat == 0x3000 || c.toNat == 0xfeff

/-- Characters removed by transformPrice's replace of dollar, pound, euro,
comma and backslash-s whitespace. -/
def isStrippedChar (c : Char) : Bool :=
  c == '$' || c == '£' || c == '€' || c == ',' || jsRegexWhitespace c

def stripCurrency (cs : List Char) : List Char :=
  cs.filter (fun c => !(isStrippedChar c))

/-- The unsigned-decimal regex test of transformPrice: optional digits, an
optional dot, then at least one digit, nothing else. -/
def decMatch (cs : List Char) : Bool :=
  match cs.splitOn '.' with
  | [a] => !a.isEmpty && a.all (fun c => c.isDigit)
  | [a, b] => a.all (fun c => c.isDigit) && !b.isEmpty && b.all (fun c => c.isDigit)
  | _ => false

def digitsVal (cs : List Char) : ℕ :=
  cs.foldl (fun n c => 10 * n + (c.toNat - 48)) 0

/-- parseFloat on a string that passed decMatch: exact decimal value. -/
def parseDec (cs : List Char) : ℚ :=
  match cs.splitOn '.' with
  | [a] => (digitsVal a : ℚ)
  | [a, b] => (digitsVal a : ℚ) + (digitsVal b : ℚ) / (10 : ℚ) ^ b.length
  | _ => 0

/-- Math.round(Math.max(0, price) * 100), the clamped cent count.  JS
Math.round on a non-negative value is the floor of the value plus one half;
here it is computed directly on the numerator and denominator so that it
evaluates by kernel reduction.  centsOf_eq_floor below proves it equal to
the floor formula. -/
def centsOf (q : ℚ) : ℕ :=
  if q.num ≤ 0 then 0 else (200 * q.num.toNat + q.den) / (2 * q.den)

/-- The cent count of a decimal string that passed decMatch, computed purely
on naturals (used to evaluate concrete examples; strCents_eq below relates
it to centsOf of the parsed value). -/
def strCents (cs : List Char) : ℕ :=
  match cs.splitOn '.' with
  | [a] => 100 * digitsVal a
  | [a, b] =>
      (200 * (digitsVal a * 10 ^ b.length + digitsVal b) + 10 ^ b.length) /
        (2 * 10 ^ b.length)
  | _ => 0

/-- toFixed(2) applied to a whole number of cents. -/
def formatCents (n : ℕ) : String :=
  toString (n / 100) ++ "." ++
    (if n % 100 < 10 then "0" ++ toString (n % 100) else toString (n % 100))

/-- transformPrice from the transformers module.  Null, undefined and empty
objects return "0.00"; other non-numbers fall through the number checks to
"0.00"; strings are stripped and regex-tested; numbers are clamped at zero,
rounded to cents and formatted with two decimals. -/
def transformPrice : JValue → String
  | .vNull => "0.00"
  | .vObj _ => "0.00"
  | .vArr _ => "0.00"
  | .vNaN => "0.00"
  | .vBool _ => "0.00"
  | .vStr s =>
      let clean := stripCurrency s.data
      if decMatch clean then formatCents (centsOf (parseDec clean)) else "0.00"
  | .vNum q => formatCents (centsOf q)

/-- Property lookup on a JavaScript object modelled as an association list
(first occurrence wins, as object keys are unique). -/
def jlookup (fs : List (String × JValue)) (k : String) : Option JValue :=
  match fs.find? (fun p => p.1 == k) with
  | some p => some p.2
  | none => none

/-- data.k with an absent key giving undefined (vNull in the model). -/
def jlookupD (fs : List (String × JValue)) (k : String) : JValue :=
  match jlookup fs k with
  | some v => v
  | none => .vNull

/-- The nullish-coalescing default used for the canonical fields:
data.k with a ?? default. -/
def fieldOr (fs : List (String × JValue)) (k : String) (dflt : JValue) : JValue :=
  match jlookup fs k with
  | none => dflt
  | some .vNull => dflt
  | some v => v

def canonicalKeys : List String :=
  ["id", "title", "description", "price", "image", "category"]

/-- The base object built by transformProductResponse before unknown fields
are copied across. -/
def baseTransformed (fs : List (String × JValue)) : List (String × JValue) :=
  [("id", fieldOr fs "id" (.vStr "")),
   ("title", fieldOr fs "title" (.vStr "Untitled Product")),
   ("description", fieldOr fs "description" (.vStr "No description available")),
   ("price", .vStr (transformPrice (jlookupD fs "price"))),
   ("image", fieldOr fs "image" .vNull),
   ("category", fieldOr fs "category" (.vStr "Uncategorized"))]

/-- The loop over Object.entries(data) that copies every input entry whose
key the transformed object does not already own. -/
def addExtras (acc : List (String × JValue)) : List (String × JValue) → List (String × JValue)
  | [] => acc
  | p :: rest =>
      addExtras (if (jlookup acc p.1).isSome then acc else acc ++ [p]) rest

def transformedObj (fs : List (String × JValue)) : List (String × JValue) :=
  addExtras (baseTransformed fs) fs

/-- transformProductResponse: rejects absent, non-object or array input with
a TransformError (modelled as the message and field of the error), otherwise
builds the canonical record and copies unknown fields through. -/
def transformProductResponse : JValue → Except (String × String) (List (String × JValue))
  | .vObj fs => .ok (transformedObj fs)
  | _ => .error ("No product data provided", "data")

/-! ## Error classifier (handleApiError) and ERROR_CODES table -/

/-- The shapes of raw failure values that handleApiError distinguishes, in
the order of its if chain: null or undefined errors, TransformError
instances, errors whose code is ECONNABORTED, errors carrying an HTTP
response, errors carrying a request but no response, APIError instances
(which carry none of the above), DOMException AbortError, and plain Error
objects. -/
inductive RawError where
  | transformErr (msg field : String)
  | econnAborted
  | withResponse (status : ℕ)
  | withRequest
  | apiErr (code : String) (msg : String)
  | abortError
  | plain (msg : String)

/-- The switch over error.response.status in handleApiError. -/
def classifyStatusCode (status : ℕ) : String :=
  if status = 400 then "VALIDATION_ERROR"
  else if status = 401 then "UNAUTHORIZED"
  else if status = 403 then "FORBIDDEN"
  else if status = 404 then "NOT_FOUND"
  else if status = 422 then "TRANSFORM_ERROR"
  else if status = 429 then "RATE_LIMIT"
  else if status = 500 ∨ status = 502 ∨ status = 503 ∨ status = 504 then "SERVER_ERROR"
  else "UNKNOWN_ERROR"

/-- The errorCode selected by handleApiError: none models a null or
undefined error argument.  A response status of 0 is first replaced by 500
(error.response.status or-defaulted to 500). -/
def handleApiErrorCode : Option RawError → String
  | none => "UNKNOWN_ERROR"
  | some (.transformErr _ _) => "TRANSFORM_ERROR"
  | some .econnAborted => "TIMEOUT"
  | some (.withResponse status) =>
      classifyStatusCode (if status = 0 then 500 else status)
  | some .withRequest => "NETWORK_ERROR"
  | some (.apiErr _ _) => "UNKNOWN_ERROR"
  | some .abortError => "UNKNOWN_ERROR"
  | some (.plain _) => "UNKNOWN_ERROR"

/-- The retryable flag of the ERROR_CODES table; a code absent from the
table yields undefined, hence falsy. -/
def errorCodeRetryable (code : String) : Bool :=
  code == "TIMEOUT" || code == "NETWORK_ERROR" || code == "SERVER_ERROR" ||
  code == "RATE_LIMIT" || code == "UNKNOWN_ERROR"

/-! ## Transport response, axios success interceptor, validateResponse -/

/-- An axios response as the service code reads it: HTTP status, the parsed
body (a bodiless reply parses to the empty string, which is falsy), and the
two cache-validator headers. -/
structure ApiResponse where
  status : ℕ
  data : JValue
  etag : Option String
  lastModified : Option String

/-- The fulfilled handler of api.interceptors.response: any response whose
data is falsy is rejected with a plain Error, all others pass through. -/
def responseInterceptorFulfilled (r : ApiResponse) : Except RawError ApiResponse :=
  if jsTruthy r.data then .ok r
  else .error (.plain "Invalid response received from server")

def isJArray : JValue → Bool
  | .vArr _ => true
  | _ => false

/-- typeof data is object (arrays included; null is handled before this
test everywhere it is used). -/
def isObjectLike : JValue → Bool
  | .vObj _ => true
  | .vArr _ => true
  | _ => false

/-- Object.keys(data).length is 0 or data is an empty array. -/
def isEmptyData : JValue → Bool
  | .vArr [] => true
  | .vObj [] => true
  | _ => false

/-- validateResponse from the product service.  The missing-response and
missing-data-property failures cannot arise in this model, where every
ApiResponse carries a data field.  Null data is forgiven only when
NODE_ENV is test. -/
def validateResponse (env : String) (r : ApiResponse)
    (requireArray allowEmpty : Bool) : Except RawError JValue :=
  match r.data with
  | .vNull =>
      if env = "test" then .ok (if requireArray then .vArr [] else .vNull)
      else .error (.apiErr "INVALID_RESPONSE" "Invalid response: data is null")
  | d =>
      if requireArray && !isJArray d then
        .error (.apiErr "INVALID_RESPONSE" "Invalid response format: expected array")
      else if !allowEmpty && isEmptyData d then
        .error (.apiErr "INVALID_RESPONSE" "Empty response received when data was required")
      else .ok d

/-! ## getProductById: the orchestrator attempt loop -/

/-- What one successful pass of the getProductById loop body returns:
either the 304 short-circuit result carrying only the fresh validators, or
the transformed record with caching metadata attached. -/
inductive FetchSuccess where
  | notModified (etag lastModified : Option String)
  | record (fields : List (String × JValue)) (etag lastModified : Option String)

/-- One iteration of the loop body up to its return: the transport call
(success interceptor included), the 304 short-circuit, validateResponse
with allowEmpty false, the object-shape check, and the transform.  The
transport oracle gives the settled outcome of api.get for each attempt
number. -/
def attemptOnce (env : String) (transport : ℕ → Except RawError ApiResponse)
    (attempt : ℕ) : Except RawError FetchSuccess :=
  match (transport attempt).bind responseInterceptorFulfilled with
  | .error e => .error e
  | .ok r =>
      if r.status = 304 then .ok (.notModified r.etag r.lastModified)
      else
        match validateResponse env r false false with
        | .error e => .error e
        | .ok d =>
            if !jsTruthy d || !isObjectLike d then
              .error (.apiErr "INVALID_RESPONSE" "Invalid product data format")
            else
              match transformProductResponse d with
              | .error te => .error (.transformErr te.1 te.2)
              | .ok fields => .ok (.record fields r.etag r.lastModified)

/-- The error code the loop consults for retryability:
error instanceof APIError gives error.code, anything else UNKNOWN_ERROR. -/
def loopErrCode : RawError → String
  | .apiErr c _ => c
  | _ => "UNKNOWN_ERROR"

/-- error.name equals AbortError. -/
def isAbortName : RawError → Bool
  | .abortError => true
  | _ => false

/-- How the attempt loop of getProductById ends. -/
inductive LoopExit where
  | success (r : FetchSuccess)
  | cancelled
  | exhausted (lastError : Option RawError)

/-- The attempt loop, fuelled by the remaining loop iterations (retries
minus attempt plus one).  Returns the exit, the number of transport calls
made, and the list of backoff waits (retryDelay times two to the attempt)
performed between attempts, in order. -/
def fetchLoop (env : String) (transport : ℕ → Except RawError ApiResponse)
    (retries retryDelay : ℕ) (signalAborted : Bool) :
    ℕ → ℕ → ℕ → List ℕ → LoopExit × ℕ × List ℕ
  | 0, _, calls, waits => (.exhausted none, calls, waits)
  | fuel + 1, attempt, calls, waits =>
      match attemptOnce env transport attempt with
      | .ok res => (.success res, calls + 1, waits)
      | .error e =>
          if isAbortName e || signalAborted then (.cancelled, calls + 1, waits)
          else if !errorCodeRetryable (loopErrCode e) || decide (retries ≤ attempt) then
            (.exhausted (some e), calls + 1, waits)
          else
            fetchLoop env transport retries retryDelay signalAborted
              fuel (attempt + 1) (calls + 1) (waits ++ [retryDelay * 2 ^ attempt])

/-- The outcome of getProductById: the returned value or the code of the
finally raised APIError, together with how many transport calls were made
and which backoff waits were taken. -/
structure GetProductOut where
  result : Except String FetchSuccess
  calls : ℕ
  waits : List ℕ

/-- getProductById.  retries is an Option: none models the caller omitting
options.retries, in which case the destructuring default DEFAULT_CONFIG
dot retries is undefined and the loop guard attempt lower-or-equal
undefined is false, so the loop body never runs.  A loop exhaustion throws
handleApiError of lastError inside the try; the outer catch re-runs
handleApiError on that APIError (which carries neither response nor
request), so any non-cancellation failure finally surfaces with code
UNKNOWN_ERROR.  The fuel retries plus one covers every iteration the JS
for loop can perform. -/
def getProductById (env productId : String) (retries : Option ℕ)
    (retryDelay : ℕ) (signalAborted : Bool)
    (transport : ℕ → Except RawError ApiResponse) : GetProductOut :=
  if productId = "" then
    { result := .error "VALIDATION_ERROR", calls := 0, waits := [] }
  else
    let out :=
      match retries with
      | none => (LoopExit.exhausted none, 0, [])
      | some r => fetchLoop env transport r retryDelay signalAborted (r + 1) 0 0 []
    match out with
    | (.success res, calls, waits) => { result := .ok res, calls := calls, waits := waits }
    | (.cancelled, calls, waits) =>
        { result := .error (if signalAborted then "REQUEST_CANCELLED" else "UNKNOWN_ERROR"),
          calls := calls, waits := waits }
    | (.exhausted le, calls, waits) =>
        let innerCode := handleApiErrorCode le
        { result := .error (if signalAborted then "REQUEST_CANCELLED"
            else handleApiErrorCode (some (.apiErr innerCode ""))),
          calls := calls, waits := waits }

/-! ## getProducts: collection fetch with per-item error recovery -/

/-- A per-item transform error entry: the element index and the original
element's id read with optional chaining (the raw product and the error
object itself carry no information the claims need beyond these). -/
structure ItemError where
  index : ℕ
  productId : Option JValue

/-- product optional-chaining dot id: only objects have an id property. -/
def jsGetId : JValue → Option JValue
  | .vObj fs => jlookup fs "id"
  | _ => none

/-- The body of the forEach over the response array: elements that are
falsy or not objects raise the Invalid-product-data-format TransformError,
arrays then fail inside transformProductResponse; only plain objects
normalize successfully. -/
def itemNormalize : JValue → Except Unit (List (String × JValue))
  | .vObj fs => .ok (transformedObj fs)
  | _ => .error ()

/-- Is the given normalization outcome a failure. -/
def itemFails (v : JValue) : Bool :=
  match itemNormalize v with
  | .ok _ => false
  | .error _ => true

/-- The forEach of getProducts: transformed records in order, and one
ItemError per failing element, indices counted from i. -/
def transformAll : List JValue → ℕ → List (List (String × JValue)) × List ItemError
  | [], _ => ([], [])
  | p :: rest, i =>
      let out := transformAll rest (i + 1)
      match itemNormalize p with
      | .ok c => (c :: out.1, out.2)
      | .error _ => (out.1, { index := i, productId := jsGetId p } :: out.2)

/-- What getProducts returns on a successful fetch: in the test
environment just the array of transformed products, otherwise the
standardized object with products, errors (null when none) and the
metadata counts total, transformed and failed. -/
inductive ProductsResult where
  | bare (records : List (List (String × JValue)))
  | full (records : List (List (String × JValue)))
      (errors : Option (List ItemError)) (total transformed failed : ℕ)

/-- getProducts after a validated array response: the transform loop and
the environment-dependent return shape. -/
def getProducts (env : String) (data : List JValue) : ProductsResult :=
  let out := transformAll data 0
  if env = "test" then .bare out.1
  else .full out.1 (if out.2.length = 0 then none else some out.2)
    data.length out.1.length out.2.length

/-! ## Request Lifecycle Coordinator (ProductPage) -/

/-- The slice of the ProductPage state the claims speak about.  The stored
product is abstracted to the subject id whose canonical record it is; the
timing fields (lastFetchTime, etag, lastModified) are elided. -/
structure CoordState where
  product : Option String
  loading : Bool
  error : Option String
  retryCount : ℕ
deriving DecidableEq

/-- The coordinator: component state, the requestIdRef token mint (reqs
records the subject id of every minted token in order, so the current
token is reqs.length and token t was minted for reqs.get (t-1)), and the
isMounted flag. -/
structure Coord where
  state : CoordState
  reqs : List String
  mounted : Bool
deriving DecidableEq

def initCoord : Coord :=
  { state := { product := none, loading := true, error := none, retryCount := 0 },
    reqs := [], mounted := true }

/-- How one awaited getProductById call for some token settles, as far as
fetchProduct's handlers can tell: a non-null record (whose content is
determined by the token's subject id), a falsy record (the thrown
Product-not-found error), or a rejection carrying a message, a code and a
name. -/
inductive FetchOutcome where
  | success
  | nullData
  | failure (msg code name : String)
deriving DecidableEq

/-- The cancellation test of fetchProduct's catch block. -/
def isCancelledErr (code name : String) : Bool :=
  code == "REQUEST_CANCELLED" || name == "AbortError"

/-- An invocation of fetchProduct: mint a new token (push the subject id),
then run the gated state updates up to the await.  With a falsy productId
the early-return branch records the Product-ID-is-required error. -/
def applyStart (c : Coord) (pid : String) : Coord :=
  let c1 : Coord := { c with reqs := c.reqs ++ [pid] }
  if c.mounted = true then
    if pid = "" then
      { c1 with state :=
          { c1.state with loading := false, error := some "Product ID is required" } }
    else
      { c1 with state := { c1.state with loading := true, error := none } }
  else c1

/-- The settling of the awaited call for token t: cancellations return
before touching state; every other handler runs through safeSetState,
which applies the update only while mounted and only if t is still the
latest minted token.  A successful application stores the record of the
token's subject id, clears the error and resets retryCount; a failure
stores the message and increments retryCount. -/
def applyComplete (c : Coord) (t : ℕ) (o : FetchOutcome) : Coord :=
  match o with
  | .failure msg code name =>
      if isCancelledErr code name then c
      else if c.mounted = true ∧ t = c.reqs.length then
        { c with state := { c.state with loading := false, error := some msg, retryCount := c.state.retryCount + 1 } }
      else c
  | .nullData =>
      if c.mounted = true ∧ t = c.reqs.length then
        { c with state := { c.state with loading := false, error := some "Product not found", retryCount := c.state.retryCount + 1 } }
      else c
  | .success =>
      if c.mounted = true ∧ t = c.reqs.length then
        { c with state := { c.state with product := some (c.reqs.getD (t - 1) ""), loading := false, error := none, retryCount := 0 } }
      else c

/-- The coordinator events: a fetchProduct invocation for a subject id, a
settling of the awaited call of some token, and component teardown. -/
inductive CoordEvent where
  | start (pid : String)
  | complete (t : ℕ) (o : FetchOutcome)
  | unmount
deriving DecidableEq

def stepCoord (c : Coord) (e : CoordEvent) : Coord :=
  match e with
  | .start pid => applyStart c pid
  | .complete t o => applyComplete c t o
  | .unmount => { c with mounted := false }

def runCoord (events : List CoordEvent) : Coord :=
  events.foldl stepCoord initCoord

/-- The subject ids of the start events, in order. -/
def startPids (events : List CoordEvent) : List String :=
  events.filterMap (fun e =>
    match e with
    | .start pid => some pid
    | _ => none)

/-- The Success state of the coordinator state machine. -/
def isSuccessState (s : CoordState) : Bool :=
  !s.loading && s.error.isNone

/-! ## Retry effect and error view (ProductPage) -/

/-- The retry useEffect: with an error present and retryCount below 3 it
schedules a fetch after min of 1000 times 2 to the retryCount and 5000
milliseconds; otherwise it schedules nothing. -/
def retrySchedule (error : Option String) (retryCount : ℕ) : Option ℕ :=
  match error with
  | none => none
  | some _ =>
      if retryCount < 3 then some (min (1000 * 2 ^ retryCount) 5000) else none

/-- renderErrorState: the Try-Again button is rendered only when an error
is present and canRetry, that is retryCount below 3, holds. -/
def showsRetryButton (error : Option String) (retryCount : ℕ) : Bool :=
  match error with
  | none => false
  | some _ => decide (retryCount < 3)


/-! ## Lemmas: price arithmetic bridges -/

theorem centsOf_eq_floor (q : ℚ) : (centsOf q : ℤ) = ⌊max 0 q * 100 + 1 / 2⌋ := by
  unfold centsOf
  by_cases h : q.num ≤ 0
  · rw [if_pos h, max_eq_left (Rat.num_nonpos.mp h)]
    have h2 : ((0 : ℚ) * 100 + 1 / 2) = 1 / 2 := by norm_num
    rw [h2]
    have h3 : ⌊(1 / 2 : ℚ)⌋ = 0 := by
      rw [Int.floor_eq_zero_iff]
      constructor <;> norm_num
    rw [h3]
    norm_num
  · have hn : 0 < q.num := lt_of_not_le h
    have hq0 : 0 < q := Rat.num_pos.mp hn
    have hden : (q.den : ℚ) ≠ 0 := by
      have := q.den_pos
      positivity
    rw [if_neg h, max_eq_right hq0.le]
    have key : q * 100 + 1 / 2 = (((200 * q.num + (q.den : ℤ)) : ℤ) : ℚ) / ((2 * q.den : ℕ) : ℚ) := by
      conv_lhs => rw [← Rat.num_div_den q]
      push_cast
      field_simp
      ring
    rw [key, Rat.floor_intCast_div_natCast, Int.natCast_div]
    congr 1
    push_cast [Int.toNat_of_nonneg hn.le]
    ring

theorem floor_one_half : ⌊(1 / 2 : ℚ)⌋ = 0 := by
  rw [Int.floor_eq_zero_iff]
  constructor <;> norm_num

theorem strCents_eq (cs : List Char) :
    (strCents cs : ℤ) = ⌊max 0 (parseDec cs) * 100 + 1 / 2⌋ := by
  unfold strCents parseDec
  rcases hsp : cs.splitOn '.' with _ | ⟨a, _ | ⟨b, _ | _⟩⟩ <;> dsimp only
  · rw [max_eq_left le_rfl]
    norm_num [floor_one_half]
  · rw [max_eq_right (by positivity : (0 : ℚ) ≤ (digitsVal a : ℚ))]
    symm
    rw [Int.floor_eq_iff]
    push_cast
    constructor <;> linarith
  · have key : max 0 ((digitsVal a : ℚ) + (digitsVal b : ℚ) / (10 : ℚ) ^ b.length) * 100 + 1 / 2
        = (((200 * (digitsVal a * 10 ^ b.length + digitsVal b) + 10 ^ b.length : ℕ) : ℤ) : ℚ) /
          ((2 * 10 ^ b.length : ℕ) : ℚ) := by
      rw [max_eq_right (by positivity)]
      push_cast
      field_simp
      ring
    rw [key, Rat.floor_intCast_div_natCast, Int.natCast_div]
  · rw [max_eq_left le_rfl]
    norm_num [floor_one_half]

theorem centsOf_parseDec (cs : List Char) : centsOf (parseDec cs) = strCents cs := by
  have h1 := centsOf_eq_floor (parseDec cs)
  have h2 := strCents_eq cs
  omega

theorem transformPrice_vStr_true (s : String)
    (h : decMatch (stripCurrency s.data) = true) :
    transformPrice (.vStr s) = formatCents (strCents (stripCurrency s.data)) := by
  simp [transformPrice, h, centsOf_parseDec]

theorem transformPrice_vStr_false (s : String)
    (h : decMatch (stripCurrency s.data) = false) :
    transformPrice (.vStr s) = "0.00" := by
  simp [transformPrice, h]

/-- C3: price normalization in transformProductResponse is total and never
throws; null, undefined and empty-object prices give "0.00"; a string price
is stripped of currency symbols, separators and whitespace and gives "0.00"
unless the remainder matches the unsigned decimal pattern; any remaining
non-numeric or NaN value gives "0.00"; otherwise the value is clamped at
zero, rounded to the nearest cent (floor of price times 100 plus one half,
which is JS Math.round on a non-negative argument) and formatted with
exactly two decimal digits; in particular the dollar string 1,234.567 maps
to "1234.57", the empty object to "0.00" and minus 5 to "0.00". -/
theorem claim_C3_price_normalization :
    (∀ v, ∃ n : ℕ, transformPrice v = formatCents n)
    ∧ transformPrice .vNull = "0.00"
    ∧ (∀ fs, transformPrice (.vObj fs) = "0.00")
    ∧ (∀ s, decMatch (stripCurrency s.data) = false → transformPrice (.vStr s) = "0.00")
    ∧ (∀ s, decMatch (stripCurrency s.data) = true →
        transformPrice (.vStr s) =
          formatCents (⌊max 0 (parseDec (stripCurrency s.data)) * 100 + 1 / 2⌋.toNat))
    ∧ (∀ q : ℚ, transformPrice (.vNum q) = formatCents (⌊max 0 q * 100 + 1 / 2⌋.toNat))
    ∧ transformPrice .vNaN = "0.00"
    ∧ (∀ b, transformPrice (.vBool b) = "0.00")
    ∧ (∀ es, transformPrice (.vArr es) = "0.00")
    ∧ (∀ q : ℚ, q < 0 → transformPrice (.vNum q) = "0.00")
    ∧ transformPrice (.vStr "$1,234.567") = "1234.57"
    ∧ transformPrice (.vObj []) = "0.00"
    ∧ transformPrice (.vNum (-5)) = "0.00" := by
  have hnum : ∀ q : ℚ, centsOf q = ⌊max 0 q * 100 + 1 / 2⌋.toNat := by
    intro q
    have := centsOf_eq_floor q
    omega
  refine ⟨?_, rfl, fun _ => rfl, transformPrice_vStr_false, ?_, ?_, rfl, fun _ => rfl,
    fun _ => rfl, ?_, ?_, by decide, ?_⟩
  · have hfc : "0.00" = formatCents 0 := by decide
    intro v
    cases v with
    | vNull => exact ⟨0, hfc⟩
    | vNum q => exact ⟨centsOf q, rfl⟩
    | vNaN => exact ⟨0, hfc⟩
    | vStr s =>
        by_cases h : decMatch (stripCurrency s.data) = true
        · exact ⟨strCents (stripCurrency s.data), transformPrice_vStr_true s h⟩
        · refine ⟨0, ?_⟩
          rw [transformPrice_vStr_false s (by simpa using h)]
          decide
    | vBool b => exact ⟨0, hfc⟩
    | vObj fs => exact ⟨0, hfc⟩
    | vArr es => exact ⟨0, hfc⟩
  · intro s h
    rw [transformPrice_vStr_true s h]
    congr 1
    have h1 := strCents_eq (stripCurrency s.data)
    omega
  · intro q
    show formatCents (centsOf q) = _
    rw [hnum q]
  · intro q h
    show formatCents (centsOf q) = "0.00"
    have hc : centsOf q = 0 := by
      unfold centsOf
      rw [if_pos (Rat.num_nonpos.mpr h.le)]
    rw [hc]
    decide
  · rw [transformPrice_vStr_true "$1,234.567" (by decide)]
    decide
  · show formatCents (centsOf (-5 : ℚ)) = "0.00"
    have hc : centsOf (-5 : ℚ) = 0 := by decide
    rw [hc]
    decide

theorem claim_C3_witness :
    (decMatch (stripCurrency "abc".data) = false ∧ transformPrice (.vStr "abc") = "0.00")
    ∧ (decMatch (stripCurrency "19.95".data) = true
        ∧ transformPrice (.vStr "19.95")
            = formatCents (⌊max 0 (parseDec (stripCurrency "19.95".data)) * 100 + 1 / 2⌋.toNat))
    ∧ ((-5 : ℚ) < 0 ∧ transformPrice (.vNum (-5)) = "0.00") := by
  obtain ⟨h1, h2, h3, h4, h5, h6, h7, h8, h9, h10, h11, h12, h13⟩ :=
    claim_C3_price_normalization
  exact ⟨⟨by decide, h4 "abc" (by decide)⟩,
    ⟨by decide, h5 "19.95" (by decide)⟩,
    ⟨by norm_num, h10 (-5) (by norm_num)⟩⟩

/-- C5 counterexample: 501 is a 5xx status, yet handleApiError maps it to
UNKNOWN_ERROR rather than SERVER_ERROR, refuting the claim that every 5xx
status maps to SERVER_ERROR. -/
theorem claim_C5_counterexample :
    (500 ≤ 501 ∧ 501 < 600)
    ∧ handleApiErrorCode (some (.withResponse 501)) = "UNKNOWN_ERROR"
    ∧ handleApiErrorCode (some (.withResponse 501)) ≠ "SERVER_ERROR" :=
  ⟨⟨by norm_num, by norm_num⟩, rfl, by decide⟩

/-- C5 amended: for a failure carrying an HTTP response the classifier maps
400 to VALIDATION_ERROR, 401 to UNAUTHORIZED, 403 to FORBIDDEN, 404 to
NOT_FOUND, 422 to TRANSFORM_ERROR, 429 to RATE_LIMIT, exactly the statuses
500, 502, 503 and 504 (and status 0, which the code first replaces by 500)
to SERVER_ERROR, and every other status, other 5xx statuses included, to
UNKNOWN_ERROR. -/
theorem claim_C5_status_mapping (s : ℕ) :
    handleApiErrorCode (some (.withResponse s)) =
      if s = 400 then "VALIDATION_ERROR"
      else if s = 401 then "UNAUTHORIZED"
      else if s = 403 then "FORBIDDEN"
      else if s = 404 then "NOT_FOUND"
      else if s = 422 then "TRANSFORM_ERROR"
      else if s = 429 then "RATE_LIMIT"
      else if s = 500 ∨ s = 502 ∨ s = 503 ∨ s = 504 ∨ s = 0 then "SERVER_ERROR"
      else "UNKNOWN_ERROR" := by
  unfold handleApiErrorCode classifyStatusCode
  dsimp only
  by_cases h0 : s = 0
  · subst h0
    decide
  · rw [if_neg h0]
    split_ifs <;> first | rfl | omega

theorem claim_C5_witness :
    handleApiErrorCode (some (.withResponse 418)) = "UNKNOWN_ERROR" := by
  have h := claim_C5_status_mapping 418
  norm_num at h
  exact h

/-- C6 counterexample: with an error present and retryCount 3 no automatic
retry is scheduled and, contrary to the claim, the error view renders no
Try-Again button either, so no user-triggered retry action is available. -/
theorem claim_C6_counterexample :
    retrySchedule (some "Network error") 3 = none
    ∧ showsRetryButton (some "Network error") 3 = false := ⟨rfl, rfl⟩

/-- C6 amended: in the Error state, while retryCount is below 3 an
automatic retry is scheduled after min of 1000 times 2 to the retryCount
and 5000 milliseconds, and the scheduled fetch mints a new token; once
retryCount reaches 3, no automatic retry is scheduled and the Try-Again
button is no longer rendered, so no user-triggered retry action is offered
by the error view. -/
theorem claim_C6_error_retry (msg : String) (rc : ℕ) (c : Coord) (pid : String) :
    (rc < 3 → retrySchedule (some msg) rc = some (min (1000 * 2 ^ rc) 5000))
    ∧ (3 ≤ rc → retrySchedule (some msg) rc = none
        ∧ showsRetryButton (some msg) rc = false)
    ∧ showsRetryButton (some msg) rc = decide (rc < 3)
    ∧ retrySchedule none rc = none
    ∧ (applyStart c pid).reqs.length = c.reqs.length + 1 := by
  refine ⟨?_, ?_, rfl, rfl, ?_⟩
  · intro h
    simp [retrySchedule, h]
  · intro h
    refine ⟨?_, ?_⟩
    · simp [retrySchedule, Nat.not_lt.mpr h]
    · simp [showsRetryButton, Nat.not_lt.mpr h]
  · simp only [applyStart]
    split_ifs <;> simp

theorem claim_C6_witness :
    (1 < 3 ∧ retrySchedule (some "boom") 1 = some (min (1000 * 2 ^ 1) 5000))
    ∧ (3 ≤ 3 ∧ retrySchedule (some "boom") 3 = none
        ∧ showsRetryButton (some "boom") 3 = false) := by
  obtain ⟨ha, _, _, _, _⟩ := claim_C6_error_retry "boom" 1 initCoord "p"
  obtain ⟨_, hb, _, _, _⟩ := claim_C6_error_retry "boom" 3 initCoord "p"
  exact ⟨⟨by norm_num, ha (by norm_num)⟩, ⟨le_rfl, hb le_rfl⟩⟩

/-- C2: evaluation of the code at the failing input.  With options.retries
omitted (none, i.e. the undefined DEFAULT_CONFIG dot retries), the attempt
loop guard is false at entry, so getProductById makes zero transport calls
and raises UNKNOWN_ERROR even when the transport would succeed immediately
— there is no default of 2 retries.  Only when the caller passes retries
explicitly (here 2) does a retryable failure produce the claimed three
total attempts with waits retryDelay times 2 to the attempt. -/
theorem claim_C2_omitted_retries :
    (getProductById "production" "prod-1" none 1000 false
        (fun _ => .ok ⟨200, .vObj [("id", .vStr "prod-1")], none, none⟩)
      = { result := .error "UNKNOWN_ERROR", calls := 0, waits := [] })
    ∧ (getProductById "production" "prod-1" (some 2) 1000 false
        (fun _ => .error (.withResponse 500))
      = { result := .error "UNKNOWN_ERROR", calls := 3, waits := [1000, 2000] }) :=
  ⟨rfl, rfl⟩

/-- C4: evaluation of the code at the failing input.  A 304 response with
an empty (falsy) body is rejected by the success interceptor with the
plain Error Invalid-response-received-from-server, so getProductById never
reaches its 304 branch: it retries the rejection as UNKNOWN_ERROR and
finally raises UNKNOWN_ERROR instead of returning the not-modified result.
Only a 304 carrying a truthy body reaches the branch, which then does
return the cached, not-modified result with the fresh validators and no
body validation. -/
theorem claim_C4_bodiless_304 :
    (responseInterceptorFulfilled ⟨304, .vStr "", some "W-1", some "Mon"⟩
      = .error (.plain "Invalid response received from server"))
    ∧ (getProductById "production" "p1" (some 2) 1000 false
        (fun _ => .ok ⟨304, .vStr "", some "W-1", some "Mon"⟩)
      = { result := .error "UNKNOWN_ERROR", calls := 3, waits := [1000, 2000] })
    ∧ (getProductById "production" "p1" (some 2) 1000 false
        (fun _ => .ok ⟨304, .vStr "not empty", some "W-1", some "Mon"⟩)
      = { result := .ok (.notModified (some "W-1") (some "Mon")), calls := 1, waits := [] }) :=
  ⟨rfl, rfl, rfl⟩

theorem transformAll_length (data : List JValue) (i : ℕ) :
    (transformAll data i).1.length + (transformAll data i).2.length = data.length := by
  induction data generalizing i with
  | nil => rfl
  | cons p rest ih =>
      cases hn : itemNormalize p with
      | ok c =>
          simp only [transformAll, hn, List.length_cons]
          have := ih (i + 1)
          omega
      | error e =>
          simp only [transformAll, hn, List.length_cons]
          have := ih (i + 1)
          omega

theorem transformAll_spec (data : List JValue) (i : ℕ) :
    transformAll data i =
      (data.filterMap (fun p => (itemNormalize p).toOption),
       ((List.enumFrom i data).filter (fun q => itemFails q.2)).map
         (fun q => { index := q.1, productId := jsGetId q.2 })) := by
  induction data generalizing i with
  | nil => rfl
  | cons p rest ih =>
      cases hn : itemNormalize p with
      | ok c =>
          have hf : itemFails p = false := by simp [itemFails, hn]
          simp [transformAll, hn, List.enumFrom, hf, ih, Except.toOption]
      | error e =>
          have hf : itemFails p = true := by simp [itemFails, hn]
          simp [transformAll, hn, List.enumFrom, hf, ih, Except.toOption]

/-- C7: for a collection fetch whose payload has K items of which M fail
normalization, the transform loop yields exactly K minus M canonical
records (the successfully normalized ones, in order) and M per-item error
entries, each carrying the item's original index and the item's own id
read with optional chaining; one failing element never aborts the whole
fetch, and getProducts (outside the test environment) returns all of them
in the standardized shape. -/
theorem claim_C7_per_item_errors (data : List JValue) :
    (transformAll data 0).1.length + (transformAll data 0).2.length = data.length
    ∧ (transformAll data 0).1 = data.filterMap (fun p => (itemNormalize p).toOption)
    ∧ (transformAll data 0).2 =
        ((List.enumFrom 0 data).filter (fun q => itemFails q.2)).map
          (fun q => { index := q.1, productId := jsGetId q.2 })
    ∧ getProducts "production" data
        = .full (transformAll data 0).1
            (if (transformAll data 0).2.length = 0 then none else some (transformAll data 0).2)
            data.length (transformAll data 0).1.length (transformAll data 0).2.length := by
  have h := transformAll_spec data 0
  refine ⟨transformAll_length data 0, ?_, ?_, ?_⟩
  · rw [h]
  · rw [h]
  · unfold getProducts
    rw [if_neg (by decide : ¬("production" = "test"))]

theorem claim_C7_witness :
    (transformAll [JValue.vNull, .vObj [("id", .vStr "1")], .vNum 0] 0).1.length
      + (transformAll [JValue.vNull, .vObj [("id", .vStr "1")], .vNum 0] 0).2.length = 3
    ∧ (transformAll [JValue.vNull, .vObj [("id", .vStr "1")], .vNum 0] 0).2
        = [{ index := 0, productId := none }, { index := 2, productId := none }] := by
  have h := claim_C7_per_item_errors [JValue.vNull, .vObj [("id", .vStr "1")], .vNum 0]
  exact ⟨h.1, rfl⟩

/-- C10: when NODE_ENV is test, getProducts returns only the bare array of
successfully normalized records, omitting the products, errors and
metadata structure; in every other environment it returns the full
standardized structure. -/
theorem claim_C10_test_env_shape (data : List JValue) (env : String) :
    (env = "test" → getProducts env data = .bare (transformAll data 0).1)
    ∧ (env ≠ "test" → getProducts env data
        = .full (transformAll data 0).1
            (if (transformAll data 0).2.length = 0 then none else some (transformAll data 0).2)
            data.length (transformAll data 0).1.length (transformAll data 0).2.length) := by
  constructor <;> intro h <;> simp [getProducts, h]

theorem claim_C10_witness :
    getProducts "test" [JValue.vNull, .vObj [("id", .vStr "7")]]
      = .bare [transformedObj [("id", .vStr "7")]] := by
  have h := (claim_C10_test_env_shape [JValue.vNull, .vObj [("id", .vStr "7")]] "test").1 rfl
  rw [h]
  rfl

theorem jlookup_cons (p : String × JValue) (l : List (String × JValue)) (k : String) :
    jlookup (p :: l) k = if p.1 == k then some p.2 else jlookup l k := by
  cases hb : (p.1 == k) with
  | true => simp [jlookup, List.find?_cons, hb]
  | false => simp [jlookup, List.find?_cons, hb]

theorem jlookup_append (l1 l2 : List (String × JValue)) (k : String) :
    jlookup (l1 ++ l2) k =
      match jlookup l1 k with
      | some v => some v
      | none => jlookup l2 k := by
  induction l1 with
  | nil => rfl
  | cons p rest ih =>
      rw [List.cons_append, jlookup_cons, jlookup_cons]
      by_cases hb : (p.1 == k) = true
      · rw [if_pos hb, if_pos hb]
      · rw [if_neg hb, if_neg hb, ih]

theorem addExtras_lookup_isSome (rest : List (String × JValue)) :
    ∀ (acc : List (String × JValue)) (k : String), (jlookup acc k).isSome →
      jlookup (addExtras acc rest) k = jlookup acc k := by
  induction rest with
  | nil => intro acc k _; rfl
  | cons p rest ih =>
      intro acc k h
      obtain ⟨v, hv⟩ := Option.isSome_iff_exists.mp h
      simp only [addExtras]
      by_cases hp : (jlookup acc p.1).isSome = true
      · rw [if_pos hp]
        exact ih acc k h
      · rw [if_neg hp]
        have hs : jlookup (acc ++ [p]) k = jlookup acc k := by
          rw [jlookup_append, hv]
        rw [ih (acc ++ [p]) k (by rw [hs]; exact h), hs]

theorem addExtras_lookup_none (rest : List (String × JValue)) :
    ∀ (acc : List (String × JValue)) (k : String), jlookup acc k = none →
      jlookup (addExtras acc rest) k = jlookup rest k := by
  induction rest with
  | nil =>
      intro acc k h
      exact h.trans rfl
  | cons p rest ih =>
      intro acc k h
      simp only [addExtras]
      by_cases hpk : (p.1 == k) = true
      · have hpk' : p.1 = k := by simpa using hpk
        subst hpk'
        rw [if_neg (by simp [h])]
        have hsome : jlookup (acc ++ [p]) p.1 = some p.2 := by
          rw [jlookup_append, h]
          dsimp only
          rw [jlookup_cons, if_pos (by simp)]
        rw [addExtras_lookup_isSome rest (acc ++ [p]) p.1 (by rw [hsome]; rfl), hsome,
          jlookup_cons, if_pos (by simp)]
      · have hpk2 : (p.1 == k) = false := by simpa using hpk
        by_cases hacc : (jlookup acc p.1).isSome = true
        · rw [if_pos hacc, ih acc k h, jlookup_cons, if_neg (by simp [hpk2])]
        · rw [if_neg hacc]
          have hnone : jlookup (acc ++ [p]) k = none := by
            rw [jlookup_append, h]
            dsimp only
            rw [jlookup_cons, if_neg (by simp [hpk2])]
            rfl
          rw [ih (acc ++ [p]) k hnone, jlookup_cons, if_neg (by simp [hpk2])]

theorem jlookup_base_not_canonical (fs : List (String × JValue)) (k : String)
    (hk : k ∉ canonicalKeys) : jlookup (baseTransformed fs) k = none := by
  simp only [canonicalKeys, List.mem_cons, List.not_mem_nil, or_false] at hk
  push_neg at hk
  obtain ⟨h1, h2, h3, h4, h5, h6⟩ := hk
  have e1 : ("id" == k) = false := beq_eq_false_iff_ne.mpr (Ne.symm h1)
  have e2 : ("title" == k) = false := beq_eq_false_iff_ne.mpr (Ne.symm h2)
  have e3 : ("description" == k) = false := beq_eq_false_iff_ne.mpr (Ne.symm h3)
  have e4 : ("price" == k) = false := beq_eq_false_iff_ne.mpr (Ne.symm h4)
  have e5 : ("image" == k) = false := beq_eq_false_iff_ne.mpr (Ne.symm h5)
  have e6 : ("category" == k) = false := beq_eq_false_iff_ne.mpr (Ne.symm h6)
  simp only [baseTransformed, jlookup_cons, e1, e2, e3, e4, e5, e6]
  simp [jlookup]

/-- C9: for every raw record accepted by transformProductResponse, every
input key other than the six canonical fields is looked up in the output
exactly as in the input (copied through with its value unchanged), and
each of the six canonical fields of the output holds the value the
normalizer computes for it, so no unknown input key ever overwrites a
canonical field. -/
theorem claim_C9_unknown_fields (fs : List (String × JValue)) :
    transformProductResponse (.vObj fs) = .ok (transformedObj fs)
    ∧ (∀ k, k ∉ canonicalKeys → jlookup (transformedObj fs) k = jlookup fs k)
    ∧ jlookup (transformedObj fs) "id" = some (fieldOr fs "id" (.vStr ""))
    ∧ jlookup (transformedObj fs) "title" = some (fieldOr fs "title" (.vStr "Untitled Product"))
    ∧ jlookup (transformedObj fs) "description"
        = some (fieldOr fs "description" (.vStr "No description available"))
    ∧ jlookup (transformedObj fs) "price" = some (.vStr (transformPrice (jlookupD fs "price")))
    ∧ jlookup (transformedObj fs) "image" = some (fieldOr fs "image" .vNull)
    ∧ jlookup (transformedObj fs) "category"
        = some (fieldOr fs "category" (.vStr "Uncategorized")) := by
  have hbase : ∀ k v, jlookup (baseTransformed fs) k = some v →
      jlookup (transformedObj fs) k = some v := by
    intro k v hv
    unfold transformedObj
    rw [addExtras_lookup_isSome fs (baseTransformed fs) k (by rw [hv]; rfl), hv]
  refine ⟨rfl, ?_, hbase _ _ rfl, hbase _ _ rfl, hbase _ _ rfl, hbase _ _ rfl,
    hbase _ _ rfl, hbase _ _ rfl⟩
  intro k hk
  unfold transformedObj
  rw [addExtras_lookup_none fs (baseTransformed fs) k (jlookup_base_not_canonical fs k hk)]

theorem claim_C9_witness :
    ("rating" ∉ canonicalKeys)
    ∧ jlookup (transformedObj [("rating", .vNum 5), ("id", .vStr "x")]) "rating"
        = jlookup [("rating", JValue.vNum 5), ("id", JValue.vStr "x")] "rating"
    ∧ jlookup (transformedObj [("rating", .vNum 5), ("id", .vStr "x")]) "id"
        = some (.vStr "x") := by
  have h := claim_C9_unknown_fields [("rating", JValue.vNum 5), ("id", JValue.vStr "x")]
  refine ⟨by decide, h.2.1 "rating" (by decide), ?_⟩
  rw [h.2.2.1]
  rfl

theorem getLast?_eq_getD (l : List String) (L d : String)
    (h : l.getLast? = some L) : l.getD (l.length - 1) d = L := by
  induction l with
  | nil => simp at h
  | cons a tl ih =>
      cases tl with
      | nil =>
          simp at h
          simpa [List.getD] using h
      | cons b tl2 =>
          rw [List.getLast?_cons_cons] at h
          have hl : (a :: b :: tl2).length - 1 = ((b :: tl2).length - 1) + 1 := by
            simp
          rw [hl, List.getD_cons_succ]
          exact ih h

theorem applyStart_reqs (c : Coord) (pid : String) :
    (applyStart c pid).reqs = c.reqs ++ [pid] := by
  simp only [applyStart]
  split_ifs <;> rfl

theorem applyComplete_reqs (c : Coord) (t : ℕ) (o : FetchOutcome) :
    (applyComplete c t o).reqs = c.reqs := by
  cases o <;> simp only [applyComplete] <;> split_ifs <;> rfl

theorem applyComplete_stale (c : Coord) (t : ℕ) (o : FetchOutcome)
    (h : t ≠ c.reqs.length) : applyComplete c t o = c := by
  cases o with
  | success =>
      simp only [applyComplete]
      rw [if_neg (fun hc => h hc.2)]
  | nullData =>
      simp only [applyComplete]
      rw [if_neg (fun hc => h hc.2)]
  | failure msg code name =>
      simp only [applyComplete]
      split_ifs with h1 h2
      · rfl
      · exact absurd h2.2 h
      · rfl

theorem runCoord_reqs (events : List CoordEvent) : ∀ c : Coord,
    (events.foldl stepCoord c).reqs = c.reqs ++ startPids events := by
  induction events with
  | nil => intro c; simp [startPids]
  | cons e es ih =>
      intro c
      rw [List.foldl_cons, ih]
      cases e with
      | start pid => simp [stepCoord, applyStart_reqs, startPids, List.filterMap_cons]
      | complete t o => simp [stepCoord, applyComplete_reqs, startPids, List.filterMap_cons]
      | unmount => simp [stepCoord, startPids, List.filterMap_cons]

theorem coordInv_step (c : Coord) (e : CoordEvent)
    (h : c.mounted = true → c.state.loading = false → c.state.error = none →
      ∀ L, c.reqs.getLast? = some L → c.state.product = some L) :
    (stepCoord c e).mounted = true → (stepCoord c e).state.loading = false →
    (stepCoord c e).state.error = none →
    ∀ L, (stepCoord c e).reqs.getLast? = some L → (stepCoord c e).state.product = some L := by
  cases e with
  | start pid =>
      simp only [stepCoord, applyStart]
      by_cases hm : c.mounted = true
      · rw [if_pos hm]
        by_cases hp : pid = ""
        · rw [if_pos hp]
          intro _ _ herr
          exact absurd herr (by simp)
        · rw [if_neg hp]
          intro _ hload
          exact absurd hload (by simp)
      · rw [if_neg hm]
        intro hm2
        exact absurd hm2 hm
  | unmount =>
      intro hm
      exact absurd hm (by simp [stepCoord])
  | complete t o =>
      simp only [stepCoord]
      cases o with
      | success =>
          simp only [applyComplete]
          by_cases hc : c.mounted = true ∧ t = c.reqs.length
          · rw [if_pos hc]
            intro _ _ _ L hL
            obtain ⟨hm, ht⟩ := hc
            subst ht
            simp only at hL ⊢
            rw [getLast?_eq_getD c.reqs L "" hL]
          · rw [if_neg hc]
            exact h
      | nullData =>
          simp only [applyComplete]
          by_cases hc : c.mounted = true ∧ t = c.reqs.length
          · rw [if_pos hc]
            intro _ _ herr
            exact absurd herr (by simp)
          · rw [if_neg hc]
            exact h
      | failure msg code name =>
          simp only [applyComplete]
          by_cases hcan : isCancelledErr code name = true
          · rw [if_pos hcan]
            exact h
          · rw [if_neg hcan]
            by_cases hc : c.mounted = true ∧ t = c.reqs.length
            · rw [if_pos hc]
              intro _ _ herr
              exact absurd herr (by simp)
            · rw [if_neg hc]
              exact h

theorem coordInv_foldl (events : List CoordEvent) : ∀ c : Coord,
    (c.mounted = true → c.state.loading = false → c.state.error = none →
      ∀ L, c.reqs.getLast? = some L → c.state.product = some L) →
    ((events.foldl stepCoord c).mounted = true →
      (events.foldl stepCoord c).state.loading = false →
      (events.foldl stepCoord c).state.error = none →
      ∀ L, (events.foldl stepCoord c).reqs.getLast? = some L →
        (events.foldl stepCoord c).state.product = some L) := by
  induction events with
  | nil => intro c h; exact h
  | cons e es ih =>
      intro c h
      rw [List.foldl_cons]
      exact ih (stepCoord c e) (coordInv_step c e h)

/-- C1: a settling for token t is applied to coordinator state only when t
equals the latest minted token; a stale settling leaves the whole
coordinator (state and retry count included) unchanged.  Consequently,
after any event sequence whose last fetchProduct invocation was for
subject id L, whenever the still-mounted coordinator is observed in the
Success state its product is the canonical record fetched for L,
regardless of the order in which settlings arrived. -/
theorem claim_C1_latest_token_wins :
    (∀ (c : Coord) (t : ℕ) (o : FetchOutcome), t ≠ c.reqs.length →
      applyComplete c t o = c)
    ∧ (∀ (events : List CoordEvent) (L : String),
        (startPids events).getLast? = some L →
        (runCoord events).mounted = true →
        (runCoord events).state.loading = false →
        (runCoord events).state.error = none →
        (runCoord events).state.product = some L) := by
  refine ⟨applyComplete_stale, ?_⟩
  intro events L hL hm hload herr
  unfold runCoord at hm hload herr ⊢
  refine coordInv_foldl events initCoord ?_ hm hload herr L ?_
  · intro _ hl
    exact absurd hl (by simp [initCoord])
  · rw [runCoord_reqs events initCoord]
    simpa [initCoord] using hL

theorem claim_C1_witness :
    ((startPids [CoordEvent.start "a", .start "b", .complete 1 .success,
        .complete 2 .success]).getLast? = some "b"
      ∧ (runCoord [CoordEvent.start "a", .start "b", .complete 1 .success,
          .complete 2 .success]).mounted = true
      ∧ (runCoord [CoordEvent.start "a", .start "b", .complete 1 .success,
          .complete 2 .success]).state.loading = false
      ∧ (runCoord [CoordEvent.start "a", .start "b", .complete 1 .success,
          .complete 2 .success]).state.error = none
      ∧ (runCoord [CoordEvent.start "a", .start "b", .complete 1 .success,
          .complete 2 .success]).state.product = some "b")
    ∧ (2 ≠ initCoord.reqs.length ∧ applyComplete initCoord 2 .success = initCoord) := by
  refine ⟨⟨by decide, by decide, by decide, by decide, ?_⟩, by decide, ?_⟩
  · exact claim_C1_latest_token_wins.2
      [CoordEvent.start "a", .start "b", .complete 1 .success, .complete 2 .success]
      "b" (by decide) (by decide) (by decide) (by decide)
  · exact claim_C1_latest_token_wins.1 initCoord 2 .success (by decide)

/-- C8: a settling that is a cancellation (code REQUEST_CANCELLED or name
AbortError) never updates coordinator state, even for the current token;
after teardown no event changes the state and the coordinator stays
unmounted; and after a replacement fetchProduct invocation, the settling
of any previously minted token leaves the coordinator unchanged — so
cancelling or replacing a subject before its fetch resolves never causes a
later Success or Error transition for it. -/
theorem claim_C8_cancellation_never_transitions :
    (∀ (c : Coord) (t : ℕ) (msg code name : String),
        isCancelledErr code name = true →
        applyComplete c t (.failure msg code name) = c)
    ∧ (∀ (c : Coord) (e : CoordEvent), c.mounted = false →
        (stepCoord c e).state = c.state ∧ (stepCoord c e).mounted = false)
    ∧ (∀ (c : Coord) (pid : String) (t : ℕ) (o : FetchOutcome),
        t ≤ c.reqs.length →
        applyComplete (applyStart c pid) t o = applyStart c pid) := by
  refine ⟨?_, ?_, ?_⟩
  · intro c t msg code name h
    simp only [applyComplete]
    rw [if_pos h]
  · intro c e hm
    cases e with
    | start pid =>
        simp only [stepCoord, applyStart]
        rw [if_neg (by simp [hm])]
        exact ⟨rfl, hm⟩
    | complete t o =>
        have heq : applyComplete c t o = c := by
          cases o with
          | success =>
              simp only [applyComplete]
              rw [if_neg (by simp [hm])]
          | nullData =>
              simp only [applyComplete]
              rw [if_neg (by simp [hm])]
          | failure msg code name =>
              simp only [applyComplete]
              split_ifs with h1 h2
              · rfl
              · exact absurd h2.1 (by simp [hm])
              · rfl
        refine ⟨?_, ?_⟩ <;> simp [stepCoord, heq, hm]
    | unmount => exact ⟨rfl, rfl⟩
  · intro c pid t o h
    apply applyComplete_stale
    rw [applyStart_reqs]
    simp only [List.length_append, List.length_cons, List.length_nil]
    omega

theorem claim_C8_witness :
    (isCancelledErr "REQUEST_CANCELLED" "APIError" = true
      ∧ applyComplete (runCoord [.start "a"]) 1
          (.failure "Product data request was cancelled" "REQUEST_CANCELLED" "APIError")
        = runCoord [.start "a"])
    ∧ ((stepCoord (runCoord [.start "a", .unmount]) (.complete 1 .success)).state
        = (runCoord [.start "a", .unmount]).state)
    ∧ (1 ≤ (runCoord [.start "a"]).reqs.length
      ∧ applyComplete (applyStart (runCoord [.start "a"]) "b") 1 .success
          = applyStart (runCoord [.start "a"]) "b") := by
  obtain ⟨h1, h2, h3⟩ := claim_C8_cancellation_never_transitions
  exact ⟨⟨by decide, h1 (runCoord [.start "a"]) 1 "Product data request was cancelled"
      "REQUEST_CANCELLED" "APIError" (by decide)⟩,
    (h2 (runCoord [.start "a", .unmount]) (.complete 1 .success) (by decide)).1,
    ⟨by decide, h3 (runCoord [.start "a"]) "b" 1 .success (by decide)⟩⟩
